import Mathlib

/-!
Verification of the seat-booking subsystem of the theatre-api repository.

The embedding follows the source files:
* `theatre/models.py` — `TheatreHall`, `Performance`, `Reservation`, `Ticket`
  (with `Ticket.clean`, `Ticket.save` running `full_clean`, and the
  storage-level `UniqueConstraint` on `(performance, row, seat)` declared in
  `Ticket.Meta` and `migrations/0002_initial.py`);
* `theatre/serializers.py` — `TicketSerializer.validate`,
  `ReservationSerializer.create` (inside `transaction.atomic`),
  `TheatreHallSerializer`;
* `theatre/views.py` — `PerformanceViewSet.get_queryset` (the list-path
  `annotate` computing `tickets_available`), `PerformanceViewSet` update and
  destroy actions, `ReservationViewSet.create`.

Persisted integer columns are `PositiveIntegerField`s: the storage layer
enforces `value >= 0` (check constraint), so stored values are modelled as
`Nat`; client-supplied JSON integers are modelled as `Int` and pass through
the serializer's field bounds (`min_value=0`, `max_value=2147483647`, the
bounds DRF derives from `PositiveIntegerField`).
-/

set_option autoImplicit false

instance {ε α : Type} [DecidableEq ε] [DecidableEq α] : DecidableEq (Except ε α)
  | .ok a, .ok b =>
    if h : a = b then .isTrue (by rw [h]) else .isFalse (by simp [h])
  | .error a, .error b =>
    if h : a = b then .isTrue (by rw [h]) else .isFalse (by simp [h])
  | .ok _, .error _ => .isFalse (by simp)
  | .error _, .ok _ => .isFalse (by simp)

namespace TheatreAPI

/-- Persisted `TheatreHall` row (`models.py` lines 53-63): a name plus
`rows` and `seats_in_row`, both `PositiveIntegerField` columns. -/
structure TheatreHall where
  id : Nat
  name : String
  rows : Nat
  seats_in_row : Nat
deriving DecidableEq

/-- `TheatreHall.capacity` property (`models.py` lines 58-60). -/
def TheatreHall.capacity (h : TheatreHall) : Nat := h.rows * h.seats_in_row

/-- Persisted `Performance` row (`models.py` lines 66-72).  The
`theatre_hall` foreign key is embedded by value: hall rows are immutable in
this system (no update endpoint exists for halls), so dereferencing the key
always yields the same record.  `show_time` is modelled as an integer
timestamp. -/
structure Performance where
  id : Nat
  playId : Nat
  theatre_hall : TheatreHall
  show_time : Int
deriving DecidableEq

/-- Persisted `Reservation` row (`models.py` lines 75-82).  The
`created_at` auto-timestamp carries no claim-relevant information and is
omitted. -/
structure Reservation where
  id : Nat
  userId : Nat
deriving DecidableEq

/-- Persisted `Ticket` row (`models.py` lines 85-98). -/
structure Ticket where
  row : Nat
  seat : Nat
  performanceId : Nat
  reservationId : Nat
deriving DecidableEq

/-- The key governed by the storage `UniqueConstraint`
`unique_ticket_performance_row_seat` (`models.py` lines 95-98,
`migrations/0002_initial.py` lines 50-56). -/
def ticketKey (t : Ticket) : Nat × Nat × Nat := (t.performanceId, t.row, t.seat)

/-- The persistent store: one list per table, plus the per-table
autoincrement counters. -/
structure DB where
  halls : List TheatreHall
  performances : List Performance
  reservations : List Reservation
  tickets : List Ticket
  nextHallId : Nat
  nextPerfId : Nat
  nextResId : Nat
deriving DecidableEq

def DB.empty : DB := ⟨[], [], [], [], 1, 1, 1⟩

def DB.findPerf (db : DB) (pid : Nat) : Option Performance :=
  db.performances.find? (fun p => p.id = pid)

def DB.findHall (db : DB) (hid : Nat) : Option TheatreHall :=
  db.halls.find? (fun h => h.id = hid)

/-- Payload of the range errors raised by `TicketSerializer.validate`
(`serializers.py` lines 124-137) and `Ticket.clean` (`models.py` lines
100-116): both interpolate the offending field name and the inclusive
range `(1, bound)` into the message. -/
structure RangeError where
  field : String
  lo : Nat
  hi : Nat
deriving DecidableEq

/-- Upper bound of the integer field range DRF derives for
`PositiveIntegerField` columns (32-bit signed maximum). -/
def intFieldMax : Int := 2147483647

/-- The exceptions that can escape the booking code paths, by raising
site.  The `drf`-prefixed constructors are `rest_framework`
`ValidationError`s (subclasses of `APIException`, rendered as client
responses); the `django`-prefixed ones are `django.core.exceptions`
`ValidationError`s raised by `Model.full_clean` inside
`ReservationSerializer.create`, which are not `APIException`s. -/
inductive BookError where
  /-- DRF field-level bound failure on an `IntegerField` mapped from a
  `PositiveIntegerField` (min 0 / max 2147483647). -/
  | drfFieldBound (field : String)
  /-- DRF `PrimaryKeyRelatedField` lookup failure for `performance`. -/
  | drfDoesNotExist (pk : Nat)
  /-- DRF `ValidationError` raised by `TicketSerializer.validate`. -/
  | drfRange (e : RangeError)
  /-- DRF `ValidationError` raised by the `UniqueTogetherValidator` that
  `ModelSerializer` generates (DRF >= 3.15) from the `UniqueConstraint`
  in `Ticket.Meta`; its message, "The fields performance, row, seat must
  make a unique set.", interpolates the constraint field names only. -/
  | drfUniqueTogether (fieldNames : List String)
  /-- DRF `ValidationError` from `allow_empty=False` on the nested
  `tickets` list (`serializers.py` line 142). -/
  | drfEmptyList
  /-- django `ValidationError` raised by `Ticket.clean` via `full_clean`. -/
  | djangoRange (e : RangeError)
  /-- django `ValidationError` raised by `Model.validate_unique` via
  `full_clean`; its message interpolates the model name and the constraint
  field labels only, never the conflicting values. -/
  | djangoUnique (fieldNames : List String)
deriving DecidableEq

/-- Whether the exception is a `rest_framework` `APIException`, i.e. one
the framework renders as a client-level error response; django
`ValidationError`s raised inside `create` are not. -/
def BookError.isAPIException : BookError → Bool
  | .drfFieldBound _ => true
  | .drfDoesNotExist _ => true
  | .drfRange _ => true
  | .drfUniqueTogether _ => true
  | .drfEmptyList => true
  | .djangoRange _ => false
  | .djangoUnique _ => false

/-- The parameters interpolated into each exception's message, as raised
in the source: range errors carry the field name and the bounds of the
valid range; the unique-validation error carries the model name and the
constraint field labels (Django's `unique_error_message`). -/
def BookError.messageParams : BookError → List String
  | .drfFieldBound f => [f]
  | .drfDoesNotExist pk => [toString pk]
  | .drfRange e => [e.field, toString e.lo, toString e.hi]
  | .drfUniqueTogether fs => fs
  | .drfEmptyList => []
  | .djangoRange e => [e.field, toString e.lo, toString e.hi]
  | .djangoUnique fs => "Ticket" :: fs

/-- Field labels of the `unique_ticket_performance_row_seat` constraint. -/
def uniqueFieldNames : List String := ["performance", "row", "seat"]

/-- The argument record of `TicketSerializer.validate` (`serializers.py`
lines 112-138): the resolved performance instance plus the candidate row
and seat. -/
structure TicketAttrs where
  performance : Performance
  row : Int
  seat : Int
deriving DecidableEq

/-- `TicketSerializer.validate` (`serializers.py` lines 112-138), the Seat
Validator: checks `1 <= row <= hall.rows`, then
`1 <= seat <= hall.seats_in_row`, raising a DRF `ValidationError` naming
the offending field and the inclusive range `(1, bound)`; on success it
returns `attrs` unchanged. -/
def ticketValidate (attrs : TicketAttrs) : Except RangeError TicketAttrs :=
  if ¬ (1 ≤ attrs.row ∧
        attrs.row ≤ (attrs.performance.theatre_hall.rows : Int)) then
    .error ⟨"row", 1, attrs.performance.theatre_hall.rows⟩
  else if ¬ (1 ≤ attrs.seat ∧
        attrs.seat ≤ (attrs.performance.theatre_hall.seats_in_row : Int)) then
    .error ⟨"seat", 1, attrs.performance.theatre_hall.seats_in_row⟩
  else
    .ok attrs

/-- `Ticket.clean` (`models.py` lines 100-116): the same range checks, run
on the persisted values during `full_clean`. -/
def ticketClean (perf : Performance) (row seat : Nat) : Except RangeError Unit :=
  if ¬ (1 ≤ row ∧ row ≤ perf.theatre_hall.rows) then
    .error ⟨"row", 1, perf.theatre_hall.rows⟩
  else if ¬ (1 ≤ seat ∧ seat ≤ perf.theatre_hall.seats_in_row) then
    .error ⟨"seat", 1, perf.theatre_hall.seats_in_row⟩
  else
    .ok ()

/-- One element of the nested `tickets` payload of a reservation request:
a performance primary key plus client-supplied row and seat integers. -/
structure TicketReq where
  performanceId : Nat
  row : Int
  seat : Int
deriving DecidableEq

/-- A ticket dict after successful serializer validation: the resolved
performance instance, and the (now known non-negative) row and seat. -/
structure VTicket where
  performance : Performance
  row : Nat
  seat : Nat
deriving DecidableEq

/-- Validation of one nested `TicketSerializer` item, following the DRF
`run_validation` pipeline: `to_internal_value` first (field-level bounds
on `row` and `seat` from the `PositiveIntegerField` mapping, and
resolution of the `performance` primary key — `PrimaryKeyRelatedField`,
`serializers.py` lines 104-106); then `run_validators`, which runs the
`UniqueTogetherValidator` that `ModelSerializer` generates (DRF >= 3.15)
from the `UniqueConstraint` in `Ticket.Meta` — it queries the persisted
tickets for one whose (performance, row, seat) equals the submitted
values; then `TicketSerializer.validate`. -/
def ticketRunValidation (db : DB) (r : TicketReq) : Except BookError VTicket :=
  if ¬ (0 ≤ r.row ∧ r.row ≤ intFieldMax) then .error (.drfFieldBound "row")
  else if ¬ (0 ≤ r.seat ∧ r.seat ≤ intFieldMax) then .error (.drfFieldBound "seat")
  else
    match db.findPerf r.performanceId with
    | none => .error (.drfDoesNotExist r.performanceId)
    | some p =>
      if db.tickets.any (fun t => t.performanceId = p.id ∧
          (t.row : Int) = r.row ∧ (t.seat : Int) = r.seat) then
        .error (.drfUniqueTogether uniqueFieldNames)
      else
        match ticketValidate ⟨p, r.row, r.seat⟩ with
        | .error e => .error (.drfRange e)
        | .ok a => .ok ⟨a.performance, a.row.toNat, a.seat.toNat⟩

/-- Validation of the whole nested `tickets` list (the `many=True`
serializer): every item must validate. -/
def validateTickets (db : DB) : List TicketReq → Except BookError (List VTicket)
  | [] => .ok []
  | r :: rs =>
    match ticketRunValidation db r with
    | .error e => .error e
    | .ok v =>
      match validateTickets db rs with
      | .error e => .error e
      | .ok vs => .ok (v :: vs)

/-- `Model.validate_unique` run during `full_clean` for a `Ticket`: a
pre-insert query for another row with the same
`(performance, row, seat)` key, raising the django uniqueness
`ValidationError` when one exists.  The same key is also enforced by the
storage `UniqueConstraint` at insert time. -/
def ticketValidateUnique (db : DB) (perfId row seat : Nat) : Except BookError Unit :=
  if db.tickets.any (fun t => ticketKey t = (perfId, row, seat)) then
    .error (.djangoUnique uniqueFieldNames)
  else .ok ()

/-- `Ticket.save` (`models.py` lines 118-128): runs `full_clean`
(`clean_fields`, `Ticket.clean`, `validate_unique`) and then inserts the
row. -/
def ticketSave (db : DB) (resId : Nat) (perf : Performance) (row seat : Nat) :
    Except BookError DB :=
  match ticketClean perf row seat with
  | .error e => .error (.djangoRange e)
  | .ok _ =>
    match ticketValidateUnique db perf.id row seat with
    | .error e => .error e
    | .ok _ => .ok { db with tickets := db.tickets ++ [⟨row, seat, perf.id, resId⟩] }

/-- The `for ticket_data in tickets_data` loop of
`ReservationSerializer.create` (`serializers.py` lines 152-153): each
`Ticket.objects.create` saves one ticket against the current state of the
transaction. -/
def createTickets (resId : Nat) : DB → List VTicket → Except BookError DB
  | db, [] => .ok db
  | db, v :: vs =>
    match ticketSave db resId v.performance v.row v.seat with
    | .error e => .error e
    | .ok db' => createTickets resId db' vs

/-- The body of `ReservationSerializer.create` (`serializers.py` lines
148-154): create the `Reservation` row first, then each `Ticket`.  The
`transaction.atomic` wrapper is applied by the caller. -/
def reservationCreate (db : DB) (userId : Nat) (vs : List VTicket) :
    Except BookError DB :=
  let resId := db.nextResId
  let db1 : DB :=
    { db with reservations := db.reservations ++ [⟨resId, userId⟩],
              nextResId := db.nextResId + 1 }
  createTickets resId db1 vs

/-- The reservation-creation endpoint (`ReservationViewSet.create` →
`serializer.is_valid(raise_exception=True)` → `perform_create` →
`ReservationSerializer.create`): first serializer validation
(`allow_empty=False` on the nested list, then per-item validation), then
the create body inside `transaction.atomic` — when any exception escapes
the block the transaction rolls back and the store is left unchanged.
Returns the resulting store plus either the new reservation id or the
escaped exception. -/
def reservationEndpoint (db : DB) (userId : Nat) (reqs : List TicketReq) :
    DB × Except BookError Nat :=
  if reqs.isEmpty then (db, .error .drfEmptyList)
  else
    match validateTickets db reqs with
    | .error e => (db, .error e)
    | .ok vs =>
      match reservationCreate db userId vs with
      | .error e => (db, .error e)
      | .ok db' => (db', .ok db.nextResId)

/-- The hall-creation endpoint (`TheatreHallViewSet` create with
`TheatreHallSerializer`, `serializers.py` lines 59-62): `rows` and
`seats_in_row` pass the integer field bounds DRF derives from
`PositiveIntegerField` — at least 0 and at most 2147483647. -/
def hallCreateEndpoint (db : DB) (name : String) (rows seats : Int) :
    DB × Except BookError Nat :=
  if ¬ (0 ≤ rows ∧ rows ≤ intFieldMax) then (db, .error (.drfFieldBound "rows"))
  else if ¬ (0 ≤ seats ∧ seats ≤ intFieldMax) then
    (db, .error (.drfFieldBound "seats_in_row"))
  else
    let h : TheatreHall := ⟨db.nextHallId, name, rows.toNat, seats.toNat⟩
    ({ db with halls := db.halls ++ [h], nextHallId := db.nextHallId + 1 },
     .ok db.nextHallId)

/-- The performance-creation endpoint (`PerformanceViewSet` create with
`PerformanceSerializer`): the hall foreign key must resolve. -/
def performanceCreateEndpoint (db : DB) (playId hallId : Nat) (show_time : Int) :
    DB × Except BookError Nat :=
  match db.findHall hallId with
  | none => (db, .error (.drfDoesNotExist hallId))
  | some h =>
    let p : Performance := ⟨db.nextPerfId, playId, h, show_time⟩
    ({ db with performances := db.performances ++ [p],
               nextPerfId := db.nextPerfId + 1 },
     .ok db.nextPerfId)

/-- The performance-update endpoint (`PerformanceViewSet` has
`UpdateModelMixin`; `PerformanceSerializer` exposes `play`, `theatre_hall`
and `show_time` as writable).  Tickets are untouched. -/
def performanceUpdateEndpoint (db : DB) (pid playId hallId : Nat)
    (show_time : Int) : DB × Except BookError Unit :=
  match db.findPerf pid with
  | none => (db, .error (.drfDoesNotExist pid))
  | some _ =>
    match db.findHall hallId with
    | none => (db, .error (.drfDoesNotExist hallId))
    | some h =>
      ({ db with performances := db.performances.map (fun p =>
            if p.id = pid then
              { p with playId := playId, theatre_hall := h, show_time := show_time }
            else p) },
       .ok ())

/-- The performance-destroy endpoint (`DestroyModelMixin`): deleting a
performance cascades to its tickets (`on_delete=CASCADE`). -/
def performanceDeleteEndpoint (db : DB) (pid : Nat) : DB :=
  { db with performances := db.performances.filter (fun p => p.id ≠ pid),
            tickets := db.tickets.filter (fun t => t.performanceId ≠ pid) }

/-- `Count("tickets")` for one performance: the number of persisted
tickets whose `performance` foreign key is the given id. -/
def performanceTicketCount (db : DB) (pid : Nat) : Nat :=
  (db.tickets.filter (fun t => t.performanceId = pid)).length

/-- One row of the performance list response
(`PerformanceListSerializer`), carrying the annotated
`tickets_available`. -/
structure PerfListRow where
  id : Nat
  show_time : Int
  theatre_hall_capacity : Nat
  tickets_available : Int
deriving DecidableEq

/-- The list branch of `PerformanceViewSet.get_queryset` (`views.py`
lines 167-190): optional `date` and `play` query-parameter filters, then
`annotate(tickets_available = F(theatre_hall__rows) *
F(theatre_hall__seats_in_row) - Count(tickets))`.  The annotation is
evaluated in database integer arithmetic, hence over `Int`. -/
def performanceListQuery (db : DB) (dateF : Option Int) (playF : Option Nat) :
    List PerfListRow :=
  let qs1 : List Performance := match dateF with
    | some d => db.performances.filter (fun p => p.show_time = d)
    | none => db.performances
  let qs2 : List Performance := match playF with
    | some pl => qs1.filter (fun p => p.playId = pl)
    | none => qs1
  qs2.map (fun p =>
    { id := p.id
      show_time := p.show_time
      theatre_hall_capacity := p.theatre_hall.capacity
      tickets_available :=
        ((p.theatre_hall.rows * p.theatre_hall.seats_in_row : Nat) : Int) -
          (performanceTicketCount db p.id : Int) })

/-- Modelled from the spec: `availableSeats(p) = hall.rows *
hall.seats_in_row - count(tickets where ticket.performance ==
performance)`, stated independently of the view code for comparison. -/
def availableSeats (db : DB) (p : Performance) : Int :=
  (p.theatre_hall.rows : Int) * (p.theatre_hall.seats_in_row : Int) -
    ((db.tickets.filter (fun t => t.performanceId = p.id)).length : Int)

/-- One successful state-changing operation of the booking subsystem.
Failed calls leave the store unchanged and so never change the state. -/
inductive Step : DB → DB → Prop where
  | hallCreate (db : DB) (name : String) (rows seats : Int) (db' : DB) (rid : Nat)
      (h : hallCreateEndpoint db name rows seats = (db', .ok rid)) : Step db db'
  | perfCreate (db : DB) (playId hallId : Nat) (st : Int) (db' : DB) (rid : Nat)
      (h : performanceCreateEndpoint db playId hallId st = (db', .ok rid)) : Step db db'
  | perfUpdate (db : DB) (pid playId hallId : Nat) (st : Int) (db' : DB)
      (h : performanceUpdateEndpoint db pid playId hallId st = (db', .ok ())) : Step db db'
  | perfDelete (db : DB) (pid : Nat) : Step db (performanceDeleteEndpoint db pid)
  | reservationCreate (db : DB) (u : Nat) (reqs : List TicketReq) (db' : DB) (rid : Nat)
      (h : reservationEndpoint db u reqs = (db', .ok rid)) : Step db db'

/-- States reachable from the empty store through the exposed operations. -/
inductive Reachable : DB → Prop where
  | init : Reachable DB.empty
  | step {db db' : DB} (h : Reachable db) (s : Step db db') : Reachable db'

/-! ### Concrete fixtures used by witnesses and counterexamples -/

/-- A 20 x 20 hall, as in the spec's scenario. -/
def hallBlue : TheatreHall := ⟨1, "Blue", 20, 20⟩

/-- Store after creating `hallBlue`. -/
def dbW1 : DB := ⟨[hallBlue], [], [], [], 2, 1, 1⟩

/-- The performance scheduled in `hallBlue`. -/
def perfW : Performance := ⟨1, 1, hallBlue, 0⟩

/-- Store after additionally creating `perfW`. -/
def dbW2 : DB := ⟨[hallBlue], [perfW], [], [], 2, 2, 1⟩

/-- Store after user 1 additionally books (row 2, seat 3) of `perfW`. -/
def dbW3 : DB := ⟨[hallBlue], [perfW], [⟨1, 1⟩], [⟨2, 3, 1, 1⟩], 2, 2, 2⟩

theorem reachable_dbW3 : Reachable dbW3 :=
  .step (.step (.step .init
    (.hallCreate DB.empty "Blue" 20 20 dbW1 1 (by decide)))
    (.perfCreate dbW1 1 1 0 dbW2 1 (by decide)))
    (.reservationCreate dbW2 1 [⟨1, 2, 3⟩] dbW3 1 (by decide))

/-! ### C4 — the Seat Validator's range contract -/

/-- C4: for every performance and candidate integers `row` and `seat`,
`TicketSerializer.validate` fails with the range error naming `row` and
the inclusive range `(1, hall.rows)` exactly when `row` is out of bounds;
failing that, it fails with the error naming `seat` and
`(1, hall.seats_in_row)` exactly when `seat` is out of bounds; and it
succeeds (returning the attrs unchanged) exactly when both are within the
inclusive bounds — in particular `row = hall.rows`, `seat =
hall.seats_in_row` is accepted. -/
theorem C4_seat_validator_range (p : Performance) (row seat : Int) :
    (ticketValidate ⟨p, row, seat⟩ = .error ⟨"row", 1, p.theatre_hall.rows⟩ ↔
      (row < 1 ∨ (p.theatre_hall.rows : Int) < row)) ∧
    (ticketValidate ⟨p, row, seat⟩ = .error ⟨"seat", 1, p.theatre_hall.seats_in_row⟩ ↔
      ((1 ≤ row ∧ row ≤ (p.theatre_hall.rows : Int)) ∧
        (seat < 1 ∨ (p.theatre_hall.seats_in_row : Int) < seat))) ∧
    (ticketValidate ⟨p, row, seat⟩ = .ok ⟨p, row, seat⟩ ↔
      (1 ≤ row ∧ row ≤ (p.theatre_hall.rows : Int) ∧
        1 ≤ seat ∧ seat ≤ (p.theatre_hall.seats_in_row : Int))) := by
  by_cases hr : 1 ≤ row ∧ row ≤ (p.theatre_hall.rows : Int) <;>
    by_cases hs : 1 ≤ seat ∧ seat ≤ (p.theatre_hall.seats_in_row : Int) <;>
      simp [ticketValidate, hr, hs, RangeError.mk.injEq] <;> omega

/-- Witness for C4: on the 20 x 20 hall, the boundary seat (20, 20) is
accepted and row 21 is rejected with the range error naming `row`. -/
theorem C4_witness :
    ticketValidate ⟨perfW, 20, 20⟩ = .ok ⟨perfW, 20, 20⟩ ∧
    ticketValidate ⟨perfW, 21, 1⟩ = .error ⟨"row", 1, 20⟩ :=
  ⟨(C4_seat_validator_range perfW 20 20).2.2.mpr (by decide),
   (C4_seat_validator_range perfW 21 1).1.mpr (by decide)⟩

/-! ### C9 — the Seat Validator is deterministic and idempotent -/

/-- C9: the Seat Validator is a pure function — two calls on identical
inputs return identical results — and it is idempotent: revalidating the
attrs returned by a successful validation returns them unchanged with the
same verdict. -/
theorem C9_validator_deterministic_idempotent (a b : TicketAttrs) (hab : a = b) :
    ticketValidate a = ticketValidate b ∧
    (ticketValidate a).bind ticketValidate = ticketValidate a := by
  subst hab
  refine ⟨rfl, ?_⟩
  by_cases hr : 1 ≤ a.row ∧ a.row ≤ (a.performance.theatre_hall.rows : Int) <;>
    by_cases hs : 1 ≤ a.seat ∧ a.seat ≤ (a.performance.theatre_hall.seats_in_row : Int) <;>
      simp [ticketValidate, hr, hs, Except.bind]

/-- Witness for C9 at a concrete input. -/
theorem C9_witness :
    (ticketValidate ⟨perfW, 2, 3⟩).bind ticketValidate = ticketValidate ⟨perfW, 2, 3⟩ :=
  (C9_validator_deterministic_idempotent ⟨perfW, 2, 3⟩ ⟨perfW, 2, 3⟩ rfl).2

/-! ### Lemmas about the validation and creation pipeline -/

/-- Unfolding a successful `TicketSerializer.validate`. -/
theorem ticketValidate_ok {attrs a : TicketAttrs} (h : ticketValidate attrs = .ok a) :
    a = attrs ∧ 1 ≤ attrs.row ∧ attrs.row ≤ (attrs.performance.theatre_hall.rows : Int) ∧
    1 ≤ attrs.seat ∧ attrs.seat ≤ (attrs.performance.theatre_hall.seats_in_row : Int) := by
  unfold ticketValidate at h
  split at h
  · cases h
  split at h
  · cases h
  rename_i h1 h2
  cases h
  rw [not_not] at h1 h2
  exact ⟨rfl, h1.1, h1.2, h2.1, h2.2⟩

/-- The relation between a request item and the validated ticket dict the
serializer produces for it. -/
def ReqMatches (db : DB) (r : TicketReq) (v : VTicket) : Prop :=
  v.performance ∈ db.performances ∧ v.performance.id = r.performanceId ∧
  (v.row : Int) = r.row ∧ (v.seat : Int) = r.seat ∧
  1 ≤ v.row ∧ v.row ≤ v.performance.theatre_hall.rows ∧
  1 ≤ v.seat ∧ v.seat ≤ v.performance.theatre_hall.seats_in_row

/-- Unfolding a successful validation of one nested ticket item. -/
theorem ticketRunValidation_ok {db : DB} {r : TicketReq} {v : VTicket}
    (h : ticketRunValidation db r = .ok v) : ReqMatches db r v := by
  unfold ticketRunValidation at h
  split at h
  · cases h
  split at h
  · cases h
  split at h
  · cases h
  rename_i p hfind
  split at h
  · cases h
  split at h
  · cases h
  rename_i a hval
  cases h
  obtain ⟨rfl, hv1, hv2, hv3, hv4⟩ := ticketValidate_ok hval
  have hmem : p ∈ db.performances := List.mem_of_find?_eq_some hfind
  have hid : p.id = r.performanceId := by
    have := List.find?_some hfind
    simpa using this
  dsimp only at hv1 hv2 hv3 hv4
  refine ⟨hmem, hid, ?_, ?_, ?_, ?_, ?_, ?_⟩ <;> dsimp only <;> omega

/-- A nested ticket item that passes validation had a fresh key: the
generated `UniqueTogetherValidator` found no persisted ticket with the
submitted (performance, row, seat). -/
theorem ticketRunValidation_ok_fresh {db : DB} {r : TicketReq} {v : VTicket}
    (h : ticketRunValidation db r = .ok v) :
    ∀ t ∈ db.tickets,
      ticketKey t ≠ (r.performanceId, r.row.toNat, r.seat.toNat) := by
  unfold ticketRunValidation at h
  split at h
  · cases h
  rename_i hrowb
  split at h
  · cases h
  rename_i hseatb
  rw [not_not] at hrowb hseatb
  split at h
  · cases h
  rename_i p hfind
  split at h
  · cases h
  rename_i hany
  have hid : p.id = r.performanceId := by
    have := List.find?_some hfind
    simpa using this
  intro t ht hk
  apply hany
  refine List.any_eq_true.mpr ⟨t, ht, ?_⟩
  simp only [decide_eq_true_eq]
  unfold ticketKey at hk
  rw [Prod.ext_iff, Prod.ext_iff] at hk
  obtain ⟨hk1, hk2, hk3⟩ := hk
  dsimp only at hk1 hk2 hk3
  refine ⟨by omega, by omega, by omega⟩

/-- Unfolding a successful validation of the whole nested list. -/
theorem validateTickets_ok {db : DB} : ∀ {reqs : List TicketReq} {vs : List VTicket},
    validateTickets db reqs = .ok vs → List.Forall₂ (ReqMatches db) reqs vs
  | [], _, h => by
    unfold validateTickets at h
    cases h
    exact .nil
  | _ :: _, _, h => by
    unfold validateTickets at h
    split at h
    · cases h
    rename_i v hv
    split at h
    · cases h
    rename_i vs0 hvs
    cases h
    exact .cons (ticketRunValidation_ok hv) (validateTickets_ok hvs)

/-- Unfolding a successful `validate_unique`: no persisted ticket already
holds the key. -/
theorem ticketValidateUnique_ok {db : DB} {pid row seat : Nat} {u : Unit}
    (h : ticketValidateUnique db pid row seat = .ok u) :
    ∀ t ∈ db.tickets, ticketKey t ≠ (pid, row, seat) := by
  unfold ticketValidateUnique at h
  split at h
  · cases h
  rename_i hany
  intro t ht heq
  exact hany (List.any_eq_true.mpr ⟨t, ht, by simp [heq]⟩)

/-- `validate_unique` fails on a taken key (provided `clean` passed and
execution reaches it): here, just that it cannot succeed. -/
theorem ticketValidateUnique_error {db : DB} {pid row seat : Nat}
    (h : ∃ t ∈ db.tickets, ticketKey t = (pid, row, seat)) :
    ticketValidateUnique db pid row seat = .error (.djangoUnique uniqueFieldNames) := by
  obtain ⟨t, ht, hk⟩ := h
  unfold ticketValidateUnique
  rw [if_pos]
  exact List.any_eq_true.mpr ⟨t, ht, by simp [hk]⟩

/-- Unfolding a successful `Ticket.save`. -/
theorem ticketSave_ok {db : DB} {resId : Nat} {perf : Performance}
    {row seat : Nat} {db' : DB}
    (h : ticketSave db resId perf row seat = .ok db') :
    db' = { db with tickets := db.tickets ++ [⟨row, seat, perf.id, resId⟩] } ∧
    (∀ t ∈ db.tickets, ticketKey t ≠ (perf.id, row, seat)) ∧
    1 ≤ row ∧ row ≤ perf.theatre_hall.rows ∧
    1 ≤ seat ∧ seat ≤ perf.theatre_hall.seats_in_row := by
  unfold ticketSave at h
  split at h
  · cases h
  rename_i u0 hclean
  split at h
  · cases h
  rename_i u1 huniq
  cases h
  refine ⟨rfl, ticketValidateUnique_ok huniq, ?_⟩
  unfold ticketClean at hclean
  split at hclean
  · cases hclean
  split at hclean
  · cases hclean
  rename_i h1 h2
  rw [not_not] at h1 h2
  exact ⟨h1.1, h1.2, h2.1, h2.2⟩

/-- A successful create loop appends exactly one ticket per validated
item, in order, and touches nothing else. -/
theorem createTickets_ok {resId : Nat} : ∀ {db : DB} {vs : List VTicket} {db' : DB},
    createTickets resId db vs = .ok db' →
    db' = { db with tickets :=
      db.tickets ++ vs.map (fun v => ⟨v.row, v.seat, v.performance.id, resId⟩) }
  | db, [], db', h => by
    unfold createTickets at h
    cases h
    simp
  | db, v :: vs, db', h => by
    unfold createTickets at h
    split at h
    · cases h
    rename_i db1 hsave
    obtain ⟨rfl, -, -⟩ := ticketSave_ok hsave
    have := createTickets_ok h
    rw [this]
    simp

/-- Unfolding a successful reservation-creation call. -/
theorem reservationEndpoint_ok {db : DB} {u : Nat} {reqs : List TicketReq}
    {db' : DB} {rid : Nat}
    (h : reservationEndpoint db u reqs = (db', .ok rid)) :
    rid = db.nextResId ∧ reqs ≠ [] ∧ ∃ vs, validateTickets db reqs = .ok vs ∧
      db' = { db with
        reservations := db.reservations ++ [⟨db.nextResId, u⟩],
        nextResId := db.nextResId + 1,
        tickets := db.tickets ++
          vs.map (fun v => ⟨v.row, v.seat, v.performance.id, db.nextResId⟩) } := by
  unfold reservationEndpoint at h
  split at h
  · cases h
  rename_i hne
  split at h
  · cases h
  rename_i vs hvs
  split at h
  · cases h
  rename_i db1 hcreate
  cases h
  refine ⟨rfl, ?_, vs, hvs, ?_⟩
  · intro hnil
    subst hnil
    simp at hne
  · unfold reservationCreate at hcreate
    have := createTickets_ok hcreate
    rw [this]

/-- A failed reservation-creation call leaves the store unchanged
(`transaction.atomic` rolls back, and validation failures occur before
any write). -/
theorem reservationEndpoint_error {db : DB} {u : Nat} {reqs : List TicketReq}
    {db' : DB} {e : BookError}
    (h : reservationEndpoint db u reqs = (db', .error e)) : db' = db := by
  unfold reservationEndpoint at h
  split at h
  · cases h
    rfl
  split at h
  · cases h
    rfl
  split at h
  · cases h
    rfl
  cases h

/-! ### C3 — the list-path availability annotation equals the spec formula -/

/-- C3: every row emitted by the list branch of
`PerformanceViewSet.get_queryset` (with any `date`/`play` filters) comes
from a persisted performance `p`, and its `tickets_available` annotation
equals `p.hall.rows * p.hall.seats_in_row` minus the number of persisted
tickets whose performance is `p`. -/
theorem C3_availability_formula (db : DB) (dateF : Option Int) (playF : Option Nat)
    (r : PerfListRow) (hr : r ∈ performanceListQuery db dateF playF) :
    ∃ p, p ∈ db.performances ∧ p.id = r.id ∧
      r.tickets_available = availableSeats db p := by
  unfold performanceListQuery at hr
  rw [List.mem_map] at hr
  obtain ⟨p, hp, rfl⟩ := hr
  refine ⟨p, ?_, rfl, ?_⟩
  · cases dateF <;> cases playF <;>
      simp only [List.mem_filter] at hp <;> tauto
  · simp only [availableSeats, performanceTicketCount]
    push_cast
    ring

/-- Witness for C3 on the concrete store `dbW3` (one 20 x 20 performance
with one sold ticket: 399 seats available). -/
theorem C3_witness :
    ∃ p, p ∈ dbW3.performances ∧ p.id = 1 ∧
      (399 : Int) = availableSeats dbW3 p :=
  C3_availability_formula dbW3 none none ⟨1, 0, 400, 399⟩ (by decide)

/-! ### C2 — createReservation is all-or-nothing -/

/-- C2: if a reservation-creation call fails for any reason (serializer
validation, range failure, uniqueness violation), the persistent state
afterwards equals the state before — no `Reservation` and no `Ticket` row
is left behind; if it succeeds, the new `Reservation` exists and exactly
one `Ticket` per request was persisted (in request order), each matching
its request. -/
theorem C2_reservation_atomicity (db : DB) (u : Nat) (reqs : List TicketReq) :
    (∀ e : BookError, (reservationEndpoint db u reqs).2 = .error e →
      (reservationEndpoint db u reqs).1 = db) ∧
    (∀ rid : Nat, (reservationEndpoint db u reqs).2 = .ok rid →
      ∃ vs, validateTickets db reqs = .ok vs ∧
        List.Forall₂ (ReqMatches db) reqs vs ∧
        (reservationEndpoint db u reqs).1.reservations =
          db.reservations ++ [⟨rid, u⟩] ∧
        (reservationEndpoint db u reqs).1.tickets =
          db.tickets ++ vs.map (fun v => ⟨v.row, v.seat, v.performance.id, rid⟩)) := by
  constructor
  · intro e he
    have h : reservationEndpoint db u reqs =
        ((reservationEndpoint db u reqs).1, .error e) := by rw [← he]
    exact reservationEndpoint_error h
  · intro rid hok
    have h : reservationEndpoint db u reqs =
        ((reservationEndpoint db u reqs).1, .ok rid) := by rw [← hok]
    obtain ⟨hrid, hne, vs, hvs, hdb⟩ := reservationEndpoint_ok h
    subst hrid
    exact ⟨vs, hvs, validateTickets_ok hvs, by rw [hdb], by rw [hdb]⟩

/-- Witness for C2: the spec's atomicity scenario — three requests on the
20 x 20 hall with the third out of range — leaves the store exactly as it
was. -/
theorem C2_witness :
    (reservationEndpoint dbW2 1 [⟨1, 1, 1⟩, ⟨1, 1, 2⟩, ⟨1, 21, 1⟩]).1 = dbW2 :=
  (C2_reservation_atomicity dbW2 1 [⟨1, 1, 1⟩, ⟨1, 1, 2⟩, ⟨1, 21, 1⟩]).1
    (.drfRange ⟨"row", 1, 20⟩) (by decide)

/-! ### C6 — empty ticket lists are rejected -/

/-- C6: a reservation-creation call with an empty ticket list fails with
the DRF `ValidationError` from `allow_empty=False` and persists nothing;
and every successful call persists at least one ticket for the new
reservation, so a reservation with zero tickets is never created. -/
theorem C6_empty_ticket_list (db : DB) (u : Nat) :
    reservationEndpoint db u [] = (db, .error .drfEmptyList) ∧
    (∀ (reqs : List TicketReq) (rid : Nat),
      (reservationEndpoint db u reqs).2 = .ok rid →
      0 < ((reservationEndpoint db u reqs).1.tickets.filter
            (fun t => t.reservationId = rid)).length) := by
  constructor
  · rfl
  · intro reqs rid hok
    have h : reservationEndpoint db u reqs =
        ((reservationEndpoint db u reqs).1, .ok rid) := by rw [← hok]
    obtain ⟨hrid, hne, vs, hvs, hdb⟩ := reservationEndpoint_ok h
    subst hrid
    rw [hdb]
    have hlen : reqs.length = vs.length := (validateTickets_ok hvs).length_eq
    have hpos : 0 < vs.length := by
      cases reqs with
      | nil => exact absurd rfl hne
      | cons a as => rw [← hlen]; simp
    have hkeep : (vs.map (fun v =>
        (⟨v.row, v.seat, v.performance.id, db.nextResId⟩ : Ticket))).filter
          (fun t => t.reservationId = db.nextResId) =
        vs.map (fun v => (⟨v.row, v.seat, v.performance.id, db.nextResId⟩ : Ticket)) := by
      apply List.filter_eq_self.mpr
      intro t ht
      obtain ⟨v, hv, rfl⟩ := List.mem_map.mp ht
      simp
    simp only [List.filter_append, List.length_append, hkeep, List.length_map]
    omega

/-- Witness for C6: a successful concrete booking has a positive ticket
count for its reservation. -/
theorem C6_witness :
    0 < ((reservationEndpoint dbW2 1 [⟨1, 2, 3⟩]).1.tickets.filter
          (fun t => t.reservationId = 1)).length :=
  (C6_empty_ticket_list dbW2 1).2 [⟨1, 2, 3⟩] 1 (by decide)

/-! ### C1 — per-performance seat uniqueness is invariant -/

/-- The claim's per-performance uniqueness relation between two persisted
tickets: if they reference the same performance, their (row, seat) pairs
differ. -/
def UniquePerf (a b : Ticket) : Prop :=
  a.performanceId = b.performanceId → (a.row, a.seat) ≠ (b.row, b.seat)

/-- All persisted tickets are pairwise unique per performance. -/
def UniqueOK (db : DB) : Prop := db.tickets.Pairwise UniquePerf

theorem uniquePerf_iff_key {a b : Ticket} :
    UniquePerf a b ↔ ticketKey a ≠ ticketKey b := by
  unfold UniquePerf ticketKey
  simp only [ne_eq, Prod.mk.injEq, Prod.ext_iff]
  tauto

/-- Unfolding a successful hall creation. -/
theorem hallCreateEndpoint_ok {db : DB} {name : String} {rows seats : Int}
    {db' : DB} {rid : Nat}
    (h : hallCreateEndpoint db name rows seats = (db', .ok rid)) :
    db' = { db with
        halls := db.halls ++ [⟨db.nextHallId, name, rows.toNat, seats.toNat⟩],
        nextHallId := db.nextHallId + 1 } ∧
    0 ≤ rows ∧ rows ≤ intFieldMax ∧ 0 ≤ seats ∧ seats ≤ intFieldMax := by
  unfold hallCreateEndpoint at h
  split at h
  · cases h
  split at h
  · cases h
  rename_i h1 h2
  cases h
  rw [not_not] at h1 h2
  exact ⟨rfl, h1.1, h1.2, h2.1, h2.2⟩

/-- Unfolding a successful performance creation. -/
theorem performanceCreateEndpoint_ok {db : DB} {playId hallId : Nat} {st : Int}
    {db' : DB} {rid : Nat}
    (h : performanceCreateEndpoint db playId hallId st = (db', .ok rid)) :
    ∃ hl, db.findHall hallId = some hl ∧
      db' = { db with
        performances := db.performances ++ [⟨db.nextPerfId, playId, hl, st⟩],
        nextPerfId := db.nextPerfId + 1 } := by
  unfold performanceCreateEndpoint at h
  split at h
  · cases h
  rename_i hl hfind
  cases h
  exact ⟨hl, hfind, rfl⟩

/-- Unfolding a successful performance update. -/
theorem performanceUpdateEndpoint_ok {db : DB} {pid playId hallId : Nat}
    {st : Int} {db' : DB} {u : Unit}
    (h : performanceUpdateEndpoint db pid playId hallId st = (db', .ok u)) :
    ∃ hl, db.findHall hallId = some hl ∧
      db' = { db with performances := db.performances.map (fun p =>
        if p.id = pid then
          { p with playId := playId, theatre_hall := hl, show_time := st }
        else p) } := by
  unfold performanceUpdateEndpoint at h
  split at h
  · cases h
  split at h
  · cases h
  rename_i hl hfind
  cases h
  exact ⟨hl, hfind, rfl⟩

/-- One `Ticket.save` preserves pairwise uniqueness: `validate_unique`
(and the storage constraint behind it) admits only fresh keys. -/
theorem ticketSave_uniqueOK {db : DB} {resId : Nat} {perf : Performance}
    {row seat : Nat} {db' : DB}
    (h : ticketSave db resId perf row seat = .ok db')
    (hu : db.tickets.Pairwise UniquePerf) :
    db'.tickets.Pairwise UniquePerf := by
  obtain ⟨rfl, hfresh, -⟩ := ticketSave_ok h
  rw [List.pairwise_append]
  refine ⟨hu, by simp, ?_⟩
  intro a ha b hb
  simp only [List.mem_singleton] at hb
  subst hb
  rw [uniquePerf_iff_key]
  simpa [ticketKey] using hfresh a ha

/-- The whole create loop preserves pairwise uniqueness. -/
theorem createTickets_uniqueOK {resId : Nat} : ∀ {db : DB} {vs : List VTicket}
    {db' : DB}, createTickets resId db vs = .ok db' →
    db.tickets.Pairwise UniquePerf → db'.tickets.Pairwise UniquePerf
  | _, [], _, h, hu => by
    unfold createTickets at h
    cases h
    exact hu
  | db, v :: vs, db', h, hu => by
    unfold createTickets at h
    split at h
    · cases h
    rename_i db1 hsave
    exact createTickets_uniqueOK h (ticketSave_uniqueOK hsave hu)

/-- A successful reservation creation preserves pairwise uniqueness. -/
theorem reservationEndpoint_uniqueOK {db : DB} {u : Nat} {reqs : List TicketReq}
    {db' : DB} {rid : Nat}
    (h : reservationEndpoint db u reqs = (db', .ok rid))
    (hu : db.tickets.Pairwise UniquePerf) :
    db'.tickets.Pairwise UniquePerf := by
  unfold reservationEndpoint at h
  split at h
  · cases h
  split at h
  · cases h
  rename_i vs hvs
  split at h
  · cases h
  rename_i dbc hcreate
  cases h
  unfold reservationCreate at hcreate
  exact createTickets_uniqueOK hcreate hu

/-- Every operation preserves per-performance seat uniqueness. -/
theorem step_uniqueOK {db db' : DB} (s : Step db db') (hu : UniqueOK db) :
    UniqueOK db' := by
  unfold UniqueOK at hu ⊢
  cases s with
  | hallCreate name rows seats db2 rid h =>
    obtain ⟨rfl, -⟩ := hallCreateEndpoint_ok h
    exact hu
  | perfCreate playId hallId st db2 rid h =>
    obtain ⟨hl, -, rfl⟩ := performanceCreateEndpoint_ok h
    exact hu
  | perfUpdate pid playId hallId st db2 h =>
    obtain ⟨hl, -, rfl⟩ := performanceUpdateEndpoint_ok h
    exact hu
  | perfDelete pid =>
    exact List.Pairwise.sublist (List.filter_sublist _) hu
  | reservationCreate u reqs db2 rid h =>
    exact reservationEndpoint_uniqueOK h hu

/-- C1: in every reachable state, no two distinct persisted tickets that
reference the same performance share a (row, seat) pair; every operation
preserves this invariant. -/
theorem C1_seat_uniqueness_invariant (db : DB) (h : Reachable db) :
    UniqueOK db := by
  induction h with
  | init => exact List.Pairwise.nil
  | step h s ih => exact step_uniqueOK s ih

/-- Witness for C1 on the concrete reachable store `dbW3`. -/
theorem C1_witness : UniqueOK dbW3 :=
  C1_seat_uniqueness_invariant dbW3 reachable_dbW3

/-! ### C5 — what a duplicate-seat booking actually surfaces -/

theorem forall₂_mem_right {α β : Type} {R : α → β → Prop} :
    ∀ {l1 : List α} {l2 : List β}, List.Forall₂ R l1 l2 →
    ∀ {b : β}, b ∈ l2 → ∃ a ∈ l1, R a b
  | _, _, .nil, b, hb => absurd hb (List.not_mem_nil b)
  | _, _, .cons h t, b, hb => by
    rcases List.mem_cons.mp hb with rfl | hb'
    · exact ⟨_, List.mem_cons_self _ _, h⟩
    · obtain ⟨a, ha, hr⟩ := forall₂_mem_right t hb'
      exact ⟨a, List.mem_cons_of_mem _ ha, hr⟩

theorem ticketClean_ok_of_bounds {perf : Performance} {row seat : Nat}
    (h1 : 1 ≤ row) (h2 : row ≤ perf.theatre_hall.rows)
    (h3 : 1 ≤ seat) (h4 : seat ≤ perf.theatre_hall.seats_in_row) :
    ticketClean perf row seat = .ok () := by
  unfold ticketClean
  rw [if_neg (not_not_intro ⟨h1, h2⟩), if_neg (not_not_intro ⟨h3, h4⟩)]

/-- On a fresh key, `Ticket.save` inserts the row. -/
theorem ticketSave_fresh {db : DB} {resId : Nat} {perf : Performance}
    {row seat : Nat}
    (h1 : 1 ≤ row) (h2 : row ≤ perf.theatre_hall.rows)
    (h3 : 1 ≤ seat) (h4 : seat ≤ perf.theatre_hall.seats_in_row)
    (hfree : ¬ ∃ t ∈ db.tickets, ticketKey t = (perf.id, row, seat)) :
    ticketSave db resId perf row seat =
      .ok { db with tickets := db.tickets ++ [⟨row, seat, perf.id, resId⟩] } := by
  unfold ticketSave
  rw [ticketClean_ok_of_bounds h1 h2 h3 h4]
  have huniq : ticketValidateUnique db perf.id row seat = .ok () := by
    unfold ticketValidateUnique
    rw [if_neg]
    intro hany
    obtain ⟨t, ht, hkt⟩ := List.any_eq_true.mp hany
    exact hfree ⟨t, ht, by simpa using hkt⟩
  rw [huniq]

/-- A persisted duplicate of a request's (performance, row, seat) makes
the generated `UniqueTogetherValidator` fire for that item during
serializer validation (the field bounds and the primary-key resolution
run first). -/
theorem ticketRunValidation_conflict {db : DB} {r : TicketReq}
    {p : Performance} (hp : db.findPerf r.performanceId = some p)
    (hb1 : 0 ≤ r.row) (hb2 : r.row ≤ intFieldMax)
    (hb3 : 0 ≤ r.seat) (hb4 : r.seat ≤ intFieldMax)
    (hc : ∃ t ∈ db.tickets,
      ticketKey t = (r.performanceId, r.row.toNat, r.seat.toNat)) :
    ticketRunValidation db r = .error (.drfUniqueTogether uniqueFieldNames) := by
  have hid : p.id = r.performanceId := by
    have := List.find?_some hp
    simpa using this
  obtain ⟨t, ht, hk⟩ := hc
  unfold ticketKey at hk
  rw [Prod.ext_iff, Prod.ext_iff] at hk
  obtain ⟨hk1, hk2, hk3⟩ := hk
  dsimp only at hk1 hk2 hk3
  unfold ticketRunValidation
  rw [if_neg (not_not_intro ⟨hb1, hb2⟩), if_neg (not_not_intro ⟨hb3, hb4⟩)]
  simp only [hp]
  have hany : db.tickets.any (fun t => t.performanceId = p.id ∧
      (t.row : Int) = r.row ∧ (t.seat : Int) = r.seat) = true := by
    refine List.any_eq_true.mpr ⟨t, ht, ?_⟩
    simp only [decide_eq_true_eq]
    refine ⟨by omega, by omega, by omega⟩
  rw [if_pos hany]

/-- If the whole nested list validates, none of the requested keys was
already persisted (each item passed its unique-together check). -/
theorem validateTickets_ok_fresh {db : DB} : ∀ {reqs : List TicketReq}
    {vs : List VTicket}, validateTickets db reqs = .ok vs →
    ∀ r ∈ reqs, ∀ t ∈ db.tickets,
      ticketKey t ≠ (r.performanceId, r.row.toNat, r.seat.toNat)
  | [], _, _, r, hr => absurd hr (List.not_mem_nil r)
  | _ :: _, _, h, r, hr => by
    unfold validateTickets at h
    split at h
    · cases h
    rename_i v hv
    split at h
    · cases h
    rename_i vs0 hvs
    rcases List.mem_cons.mp hr with rfl | hr'
    · exact ticketRunValidation_ok_fresh hv
    · exact validateTickets_ok_fresh hvs r hr'

/-- A single-request booking of an already-sold seat is rejected during
`is_valid`, before `create` runs: the store is untouched and the DRF
unique-together `ValidationError` is surfaced. -/
theorem reservationEndpoint_single_conflict {db : DB} {u : Nat}
    {r : TicketReq} {p : Performance}
    (hp : db.findPerf r.performanceId = some p)
    (hb1 : 0 ≤ r.row) (hb2 : r.row ≤ intFieldMax)
    (hb3 : 0 ≤ r.seat) (hb4 : r.seat ≤ intFieldMax)
    (hc : ∃ t ∈ db.tickets,
      ticketKey t = (r.performanceId, r.row.toNat, r.seat.toNat)) :
    reservationEndpoint db u [r] =
      (db, .error (.drfUniqueTogether uniqueFieldNames)) := by
  have hrv := ticketRunValidation_conflict hp hb1 hb2 hb3 hb4 hc
  have hvt : validateTickets db [r] =
      .error (.drfUniqueTogether uniqueFieldNames) := by
    unfold validateTickets
    rw [hrv]
  unfold reservationEndpoint
  rw [if_neg (by simp), hvt]

/-- The amended C5, proved on the code: if some requested
(performance, row, seat) is already held by a persisted ticket, the call
cannot succeed and the store is left unchanged — the duplicate is
rejected during serializer validation by the `UniqueTogetherValidator`
DRF generates from the model's `UniqueConstraint`, surfacing a
client-level DRF `ValidationError` (an `APIException`) whose message
parameters are the constraint field names only, never the offending
values; for a well-formed single-request call the result is exactly that
error.  No distinct ConflictError naming the seat exists. -/
theorem C5_amended_duplicate_rejected_at_validation (db : DB) (u : Nat)
    (reqs : List TicketReq)
    (hc : ∃ r ∈ reqs, ∃ t ∈ db.tickets,
      ticketKey t = (r.performanceId, r.row.toNat, r.seat.toNat)) :
    (reservationEndpoint db u reqs).1 = db ∧
    (∀ rid : Nat, (reservationEndpoint db u reqs).2 ≠ .ok rid) ∧
    (BookError.drfUniqueTogether uniqueFieldNames).isAPIException = true ∧
    (BookError.drfUniqueTogether uniqueFieldNames).messageParams =
      uniqueFieldNames ∧
    (∀ (r : TicketReq) (p : Performance), reqs = [r] →
      db.findPerf r.performanceId = some p →
      0 ≤ r.row → r.row ≤ intFieldMax → 0 ≤ r.seat → r.seat ≤ intFieldMax →
      reservationEndpoint db u reqs =
        (db, .error (.drfUniqueTogether uniqueFieldNames))) := by
  have hfail : ∀ rid : Nat, (reservationEndpoint db u reqs).2 ≠ .ok rid := by
    intro rid hok
    have h : reservationEndpoint db u reqs =
        ((reservationEndpoint db u reqs).1, .ok rid) := by rw [← hok]
    obtain ⟨-, -, vs, hvs, -⟩ := reservationEndpoint_ok h
    obtain ⟨r, hr, t, ht, hk⟩ := hc
    exact validateTickets_ok_fresh hvs r hr t ht hk
  refine ⟨?_, hfail, rfl, rfl, ?_⟩
  · cases he : (reservationEndpoint db u reqs).2 with
    | ok rid => exact absurd he (hfail rid)
    | error e => exact reservationEndpoint_error (by rw [← he])
  · intro r p hreq hp hb1 hb2 hb3 hb4
    subst hreq
    obtain ⟨r2, hr2, t, ht, hk⟩ := hc
    rcases List.mem_cons.mp hr2 with rfl | h0
    · exact reservationEndpoint_single_conflict hp hb1 hb2 hb3 hb4 ⟨t, ht, hk⟩
    · cases h0

/-- Counterexample for C5 as stated: booking the already-sold seat
(performance 1, row 2, seat 3) on the concrete store `dbW3` fails with
the generated unique-together error — a DRF `ValidationError` of the
validation taxonomy, not a distinct ConflictError — and its message
parameters are the constraint field names only: the offending
(performance, row, seat) values 1, 2, 3 appear nowhere, so the surfaced
error does not name the offending seat. -/
theorem C5_counterexample :
    (reservationEndpoint dbW3 2 [⟨1, 2, 3⟩]).2 =
      .error (.drfUniqueTogether uniqueFieldNames) ∧
    (BookError.drfUniqueTogether uniqueFieldNames).messageParams =
      ["performance", "row", "seat"] ∧
    ("1" ∉ (BookError.drfUniqueTogether uniqueFieldNames).messageParams ∧
     "2" ∉ (BookError.drfUniqueTogether uniqueFieldNames).messageParams ∧
     "3" ∉ (BookError.drfUniqueTogether uniqueFieldNames).messageParams) := by
  decide

/-- Witness for the amended C5 at the same concrete input. -/
theorem C5_witness :
    (reservationEndpoint dbW3 2 [⟨1, 2, 3⟩]).1 = dbW3 :=
  (C5_amended_duplicate_rejected_at_validation dbW3 2 [⟨1, 2, 3⟩]
    ⟨⟨1, 2, 3⟩, by decide, ⟨2, 3, 1, 1⟩, by decide, by decide⟩).1

/-! ### C7 — two bookings of the same seat -/

/-- A single in-range request for a free seat of an existing performance
validates to the corresponding ticket dict (in particular it passes the
generated unique-together check). -/
theorem ticketRunValidation_fresh_ok {db : DB} {pid : Nat} {row seat : Int}
    {p : Performance} (hp : db.findPerf pid = some p)
    (h1 : 1 ≤ row) (h2 : row ≤ (p.theatre_hall.rows : Int))
    (h3 : 1 ≤ seat) (h4 : seat ≤ (p.theatre_hall.seats_in_row : Int))
    (hmax1 : row ≤ intFieldMax) (hmax2 : seat ≤ intFieldMax)
    (hfree : ∀ t ∈ db.tickets, ticketKey t ≠ (p.id, row.toNat, seat.toNat)) :
    ticketRunValidation db ⟨pid, row, seat⟩ = .ok ⟨p, row.toNat, seat.toNat⟩ := by
  have hnotany : ¬ (db.tickets.any (fun t => t.performanceId = p.id ∧
      (t.row : Int) = row ∧ (t.seat : Int) = seat) = true) := by
    intro hany
    obtain ⟨t, ht, hpred⟩ := List.any_eq_true.mp hany
    rw [decide_eq_true_eq] at hpred
    obtain ⟨hq1, hq2, hq3⟩ := hpred
    refine hfree t ht ?_
    unfold ticketKey
    rw [Prod.ext_iff, Prod.ext_iff]
    dsimp only
    refine ⟨by omega, by omega, by omega⟩
  unfold ticketRunValidation
  dsimp only
  simp only [hp]
  rw [if_neg (not_not_intro ⟨by omega, hmax1⟩),
      if_neg (not_not_intro ⟨by omega, hmax2⟩),
      if_neg hnotany]
  unfold ticketValidate
  dsimp only
  rw [if_neg (not_not_intro ⟨h1, h2⟩), if_neg (not_not_intro ⟨h3, h4⟩)]

/-- A one-element request list validates to the one-element validated
list. -/
theorem validateTickets_single_aux {db : DB} {r : TicketReq} {v : VTicket}
    (h : ticketRunValidation db r = .ok v) :
    validateTickets db [r] = .ok [v] := by
  unfold validateTickets
  rw [h]
  rfl

/-- A single-request booking of a free, in-range seat succeeds and
appends exactly the requested ticket. -/
theorem reservationEndpoint_single_ok {db : DB} {u pid : Nat} {row seat : Int}
    {p : Performance} (hp : db.findPerf pid = some p)
    (h1 : 1 ≤ row) (h2 : row ≤ (p.theatre_hall.rows : Int))
    (h3 : 1 ≤ seat) (h4 : seat ≤ (p.theatre_hall.seats_in_row : Int))
    (hmax1 : row ≤ intFieldMax) (hmax2 : seat ≤ intFieldMax)
    (hfree : ∀ t ∈ db.tickets, ticketKey t ≠ (p.id, row.toNat, seat.toNat)) :
    reservationEndpoint db u [⟨pid, row, seat⟩] =
      ({ db with reservations := db.reservations ++ [⟨db.nextResId, u⟩],
                 nextResId := db.nextResId + 1,
                 tickets := db.tickets ++
                   [⟨row.toNat, seat.toNat, p.id, db.nextResId⟩] },
       .ok db.nextResId) := by
  have hval := ticketRunValidation_fresh_ok hp h1 h2 h3 h4 hmax1 hmax2 hfree
  have hvs : validateTickets db [⟨pid, row, seat⟩] =
      .ok [⟨p, row.toNat, seat.toNat⟩] := validateTickets_single_aux hval
  have hsave : ticketSave
      { db with reservations := db.reservations ++ [⟨db.nextResId, u⟩],
                nextResId := db.nextResId + 1 }
      db.nextResId p row.toNat seat.toNat =
      .ok { db with reservations := db.reservations ++ [⟨db.nextResId, u⟩],
                    nextResId := db.nextResId + 1,
                    tickets := db.tickets ++
                      [⟨row.toNat, seat.toNat, p.id, db.nextResId⟩] } :=
    ticketSave_fresh (by omega) (by omega) (by omega) (by omega)
      (by rintro ⟨t, ht, hk⟩; exact hfree t ht hk)
  have hct : createTickets db.nextResId
      { db with reservations := db.reservations ++ [⟨db.nextResId, u⟩],
                nextResId := db.nextResId + 1 }
      [⟨p, row.toNat, seat.toNat⟩] =
      .ok { db with reservations := db.reservations ++ [⟨db.nextResId, u⟩],
                    nextResId := db.nextResId + 1,
                    tickets := db.tickets ++
                      [⟨row.toNat, seat.toNat, p.id, db.nextResId⟩] } := by
    unfold createTickets
    rw [hsave]
    rfl
  unfold reservationEndpoint reservationCreate
  rw [if_neg (by simp), hvs]
  simp only [hct]

/-- The amended C7, proved on the serialized model of the two
transactions (per the concurrency model, the storage layer serializes
conflicting commits and the uniqueness constraint is the final arbiter):
when two booking calls target the same free, in-range
(performance, row, seat), the first to commit succeeds; the other is
rejected at serializer validation by the generated
`UniqueTogetherValidator` — a client-level DRF `ValidationError` naming
the constraint fields, not the seat values — leaves the store unchanged,
and the final number of persisted tickets holding that key is
exactly 1. -/
theorem C7_amended_double_booking (db : DB) (u1 u2 pid : Nat) (row seat : Int)
    (p : Performance) (hp : db.findPerf pid = some p)
    (h1 : 1 ≤ row) (h2 : row ≤ (p.theatre_hall.rows : Int))
    (h3 : 1 ≤ seat) (h4 : seat ≤ (p.theatre_hall.seats_in_row : Int))
    (hmax1 : row ≤ intFieldMax) (hmax2 : seat ≤ intFieldMax)
    (hfree : ∀ t ∈ db.tickets, ticketKey t ≠ (pid, row.toNat, seat.toNat)) :
    reservationEndpoint db u1 [⟨pid, row, seat⟩] =
      ({ db with reservations := db.reservations ++ [⟨db.nextResId, u1⟩],
                 nextResId := db.nextResId + 1,
                 tickets := db.tickets ++
                   [⟨row.toNat, seat.toNat, p.id, db.nextResId⟩] },
       .ok db.nextResId) ∧
    reservationEndpoint
      { db with reservations := db.reservations ++ [⟨db.nextResId, u1⟩],
                nextResId := db.nextResId + 1,
                tickets := db.tickets ++
                  [⟨row.toNat, seat.toNat, p.id, db.nextResId⟩] }
      u2 [⟨pid, row, seat⟩] =
      ({ db with reservations := db.reservations ++ [⟨db.nextResId, u1⟩],
                 nextResId := db.nextResId + 1,
                 tickets := db.tickets ++
                   [⟨row.toNat, seat.toNat, p.id, db.nextResId⟩] },
       .error (.drfUniqueTogether uniqueFieldNames)) ∧
    ((db.tickets ++ [(⟨row.toNat, seat.toNat, p.id, db.nextResId⟩ : Ticket)]).filter
      (fun t => ticketKey t = (pid, row.toNat, seat.toNat))).length = 1 := by
  have hid : p.id = pid := by
    have := List.find?_some hp
    simpa using this
  have hfree' : ∀ t ∈ db.tickets, ticketKey t ≠ (p.id, row.toNat, seat.toNat) := by
    rw [hid]
    exact hfree
  refine ⟨reservationEndpoint_single_ok hp h1 h2 h3 h4 hmax1 hmax2 hfree', ?_, ?_⟩
  · apply reservationEndpoint_single_conflict (p := p)
    · exact hp
    · show (0 : Int) ≤ row
      omega
    · exact hmax1
    · show (0 : Int) ≤ seat
      omega
    · exact hmax2
    · refine ⟨⟨row.toNat, seat.toNat, p.id, db.nextResId⟩, by simp, ?_⟩
      simp only [ticketKey]
      rw [hid]
  · rw [List.filter_append]
    have hnil : db.tickets.filter
        (fun t => ticketKey t = (pid, row.toNat, seat.toNat)) = [] := by
      rw [List.filter_eq_nil_iff]
      intro t ht
      simpa using hfree t ht
    rw [hnil]
    simp [ticketKey, hid]

/-- The 20 x 20 hall of the spec's concurrency example. -/
def hallMain : TheatreHall := ⟨2, "Main", 20, 20⟩

/-- A store holding performance 5 in `hallMain` with no tickets sold. -/
def dbC7 : DB := ⟨[hallMain], [⟨5, 1, hallMain, 0⟩], [], [], 3, 6, 1⟩

/-- Counterexample for C7 as stated, at the spec's own concrete input
(performance 5, row 3, seat 4): of the two identical booking calls
(serialized by the store), exactly one commits — but the other does not
observe a ConflictError naming the offending seat: it observes the DRF
unique-together `ValidationError` of the validation taxonomy, whose
message parameters are the constraint field names and contain none of
the offending performance, row or seat values. -/
theorem C7_counterexample :
    (reservationEndpoint dbC7 1 [⟨5, 3, 4⟩]).2 = .ok 1 ∧
    (reservationEndpoint (reservationEndpoint dbC7 1 [⟨5, 3, 4⟩]).1 2
      [⟨5, 3, 4⟩]).2 = .error (.drfUniqueTogether uniqueFieldNames) ∧
    (BookError.drfUniqueTogether uniqueFieldNames).messageParams =
      ["performance", "row", "seat"] ∧
    "5" ∉ (BookError.drfUniqueTogether uniqueFieldNames).messageParams ∧
    "3" ∉ (BookError.drfUniqueTogether uniqueFieldNames).messageParams ∧
    "4" ∉ (BookError.drfUniqueTogether uniqueFieldNames).messageParams := by
  decide

/-- Witness for the amended C7 at the spec's concrete input: afterwards
exactly one ticket holds (performance 5, row 3, seat 4). -/
theorem C7_witness :
    ((dbC7.tickets ++ [(⟨3, 4, 5, 1⟩ : Ticket)]).filter
      (fun t => ticketKey t = (5, 3, 4))).length = 1 :=
  (C7_amended_double_booking dbC7 1 2 5 3 4 ⟨5, 1, hallMain, 0⟩ (by decide)
    (by decide) (by decide) (by decide) (by decide) (by decide) (by decide)
    (by decide)).2.2

/-! ### C8 — hall row and seat counts -/

/-- A store holding a hall with zero rows and zero seats per row. -/
def dbC8 : DB := ⟨[⟨1, "Empty", 0, 0⟩], [], [], [], 2, 1, 1⟩

/-- Counterexample for C8 as stated: `rows` and `seats_in_row` are
`PositiveIntegerField`s, whose serializer bounds are `min_value=0`, so a
hall with zero rows and zero seats per row is accepted and persisted —
`rows >= 1` does not hold for every persisted hall. -/
theorem C8_counterexample :
    Reachable dbC8 ∧ (⟨1, "Empty", 0, 0⟩ : TheatreHall) ∈ dbC8.halls ∧
    (⟨1, "Empty", 0, 0⟩ : TheatreHall).rows = 0 ∧
    (⟨1, "Empty", 0, 0⟩ : TheatreHall).seats_in_row = 0 :=
  ⟨.step .init (.hallCreate DB.empty "Empty" 0 0 dbC8 1 (by decide)),
   by decide, rfl, rfl⟩

/-- The amended C8: every persisted hall's row and seats-per-row counts
are non-negative integers within the serializer's field range (0 to
2147483647, the bounds derived from `PositiveIntegerField`); negative
inputs are rejected by hall creation, but zero is accepted. -/
theorem C8_amended_hall_bounds :
    (∀ db : DB, Reachable db → ∀ hl ∈ db.halls,
      hl.rows ≤ 2147483647 ∧ hl.seats_in_row ≤ 2147483647) ∧
    (∀ (db : DB) (name : String) (rows seats : Int), rows < 0 ∨ seats < 0 →
      ∃ f, (hallCreateEndpoint db name rows seats).2 =
        .error (.drfFieldBound f)) := by
  constructor
  · intro db hreach
    induction hreach with
    | init => intro hl hmem; cases hmem
    | step hr s ih =>
      intro hl hmem
      cases s with
      | hallCreate name rows seats db2 rid h =>
        obtain ⟨rfl, hb⟩ := hallCreateEndpoint_ok h
        rcases List.mem_append.mp hmem with hold | hnew
        · exact ih hl hold
        · simp only [List.mem_singleton] at hnew
          subst hnew
          simp only [intFieldMax] at hb
          constructor <;> dsimp only <;> omega
      | perfCreate playId hallId st db2 rid h =>
        obtain ⟨hl2, -, rfl⟩ := performanceCreateEndpoint_ok h
        exact ih hl hmem
      | perfUpdate pid playId hallId st db2 h =>
        obtain ⟨hl2, -, rfl⟩ := performanceUpdateEndpoint_ok h
        exact ih hl hmem
      | perfDelete pid =>
        exact ih hl hmem
      | reservationCreate u reqs db2 rid h =>
        obtain ⟨-, -, vs, -, rfl⟩ := reservationEndpoint_ok h
        exact ih hl hmem
  · intro db name rows seats hneg
    unfold hallCreateEndpoint
    by_cases hrc : 0 ≤ rows ∧ rows ≤ intFieldMax
    · rw [if_neg (not_not_intro hrc)]
      have hs : ¬ (0 ≤ seats ∧ seats ≤ intFieldMax) := by
        rcases hneg with hcase | hcase
        · omega
        · omega
      rw [if_pos hs]
      exact ⟨"seats_in_row", rfl⟩
    · rw [if_pos hrc]
      exact ⟨"rows", rfl⟩

/-- Witness for the amended C8: the zero-rows hall is within bounds, and
a negative row count is rejected. -/
theorem C8_witness :
    (⟨1, "Empty", 0, 0⟩ : TheatreHall).rows ≤ 2147483647 ∧
    ∃ f, (hallCreateEndpoint DB.empty "X" (-1) 5).2 =
      .error (.drfFieldBound f) :=
  ⟨(C8_amended_hall_bounds.1 dbC8
      (.step .init (.hallCreate DB.empty "Empty" 0 0 dbC8 1 (by decide)))
      ⟨1, "Empty", 0, 0⟩ (by decide)).1,
   C8_amended_hall_bounds.2 DB.empty "X" (-1) 5 (Or.inl (by decide))⟩

/-! ### C10 — non-negativity of the availability annotation -/

/-- Every persisted ticket is in range of the current hall of its
(existing) performance. -/
def RangeOK (db : DB) : Prop :=
  ∀ t ∈ db.tickets, ∃ p ∈ db.performances, p.id = t.performanceId ∧
    1 ≤ t.row ∧ t.row ≤ p.theatre_hall.rows ∧
    1 ≤ t.seat ∧ t.seat ≤ p.theatre_hall.seats_in_row

/-- Primary keys of performances are fresh and pairwise distinct. -/
def PerfWF (db : DB) : Prop :=
  (∀ p ∈ db.performances, p.id < db.nextPerfId) ∧
  (db.performances.map Performance.id).Nodup

/-- The operations that never reassign a performance's hall: every
exposed operation except the performance-update endpoint (whose
serializer exposes `theatre_hall` as writable). -/
inductive StepKeepHall : DB → DB → Prop where
  | hallCreate (db : DB) (name : String) (rows seats : Int) (db' : DB) (rid : Nat)
      (h : hallCreateEndpoint db name rows seats = (db', .ok rid)) :
      StepKeepHall db db'
  | perfCreate (db : DB) (playId hallId : Nat) (st : Int) (db' : DB) (rid : Nat)
      (h : performanceCreateEndpoint db playId hallId st = (db', .ok rid)) :
      StepKeepHall db db'
  | perfDelete (db : DB) (pid : Nat) :
      StepKeepHall db (performanceDeleteEndpoint db pid)
  | reservationCreate (db : DB) (u : Nat) (reqs : List TicketReq) (db' : DB) (rid : Nat)
      (h : reservationEndpoint db u reqs = (db', .ok rid)) :
      StepKeepHall db db'

/-- States reachable without ever reassigning a performance's hall. -/
inductive ReachableKeepHall : DB → Prop where
  | init : ReachableKeepHall DB.empty
  | step {db db' : DB} (h : ReachableKeepHall db) (s : StepKeepHall db db') :
      ReachableKeepHall db'

theorem stepKeepHall_step {db db' : DB} (s : StepKeepHall db db') : Step db db' := by
  cases s with
  | hallCreate name rows seats db2 rid h => exact .hallCreate _ name rows seats _ rid h
  | perfCreate playId hallId st db2 rid h => exact .perfCreate _ playId hallId st _ rid h
  | perfDelete pid => exact .perfDelete _ pid
  | reservationCreate u reqs db2 rid h => exact .reservationCreate _ u reqs _ rid h

theorem stepKH_perfWF {db db' : DB} (s : StepKeepHall db db') (hw : PerfWF db) :
    PerfWF db' := by
  obtain ⟨hfresh, hnodup⟩ := hw
  cases s with
  | hallCreate name rows seats db2 rid h =>
    obtain ⟨rfl, -⟩ := hallCreateEndpoint_ok h
    exact ⟨hfresh, hnodup⟩
  | perfCreate playId hallId st db2 rid h =>
    obtain ⟨hl, -, rfl⟩ := performanceCreateEndpoint_ok h
    constructor
    · intro p hp
      rcases List.mem_append.mp hp with hold | hnew
      · exact Nat.lt_succ_of_lt (hfresh p hold)
      · simp only [List.mem_singleton] at hnew
        subst hnew
        exact Nat.lt_succ_self _
    · rw [List.map_append, List.nodup_append]
      refine ⟨hnodup, by simp, ?_⟩
      intro a ha hb
      simp only [List.map_cons, List.map_nil, List.mem_singleton] at hb
      obtain ⟨q, hq, rfl⟩ := List.mem_map.mp ha
      have := hfresh q hq
      omega
  | perfDelete pid =>
    constructor
    · intro p hp
      exact hfresh p (List.mem_of_mem_filter hp)
    · exact List.Nodup.sublist (List.Sublist.map _ (List.filter_sublist _)) hnodup
  | reservationCreate u reqs db2 rid h =>
    obtain ⟨-, -, vs, -, rfl⟩ := reservationEndpoint_ok h
    exact ⟨hfresh, hnodup⟩

theorem stepKH_rangeOK {db db' : DB} (s : StepKeepHall db db') (hr : RangeOK db) :
    RangeOK db' := by
  cases s with
  | hallCreate name rows seats db2 rid h =>
    obtain ⟨rfl, -⟩ := hallCreateEndpoint_ok h
    exact hr
  | perfCreate playId hallId st db2 rid h =>
    obtain ⟨hl, -, rfl⟩ := performanceCreateEndpoint_ok h
    intro t ht
    obtain ⟨p, hp, hrest⟩ := hr t ht
    exact ⟨p, List.mem_append_left _ hp, hrest⟩
  | perfDelete pid =>
    intro t ht
    have htm := List.mem_of_mem_filter ht
    have htne : t.performanceId ≠ pid := by
      have := List.of_mem_filter ht
      simpa using this
    obtain ⟨p, hp, hid, hrest⟩ := hr t htm
    refine ⟨p, List.mem_filter.mpr ⟨hp, ?_⟩, hid, hrest⟩
    simp [hid, htne]
  | reservationCreate u reqs db2 rid h =>
    obtain ⟨-, -, vs, hvs, rfl⟩ := reservationEndpoint_ok h
    have hf2 := validateTickets_ok hvs
    intro t ht
    rcases List.mem_append.mp ht with hold | hnew
    · obtain ⟨p, hp, hrest⟩ := hr t hold
      exact ⟨p, hp, hrest⟩
    · obtain ⟨v, hv, rfl⟩ := List.mem_map.mp hnew
      obtain ⟨r, -, hm⟩ := forall₂_mem_right hf2 hv
      obtain ⟨hmem, -, -, -, hb1, hb2, hb3, hb4⟩ := hm
      exact ⟨v.performance, hmem, rfl, hb1, hb2, hb3, hb4⟩

theorem reachableKH_uniqueOK {db : DB} (h : ReachableKeepHall db) : UniqueOK db := by
  induction h with
  | init => exact List.Pairwise.nil
  | step h s ih => exact step_uniqueOK (stepKeepHall_step s) ih

theorem reachableKH_perfWF {db : DB} (h : ReachableKeepHall db) : PerfWF db := by
  induction h with
  | init => exact ⟨fun p hp => absurd hp (List.not_mem_nil p), List.Pairwise.nil⟩
  | step h s ih => exact stepKH_perfWF s ih

theorem reachableKH_rangeOK {db : DB} (h : ReachableKeepHall db) : RangeOK db := by
  induction h with
  | init => exact fun t ht => absurd ht (List.not_mem_nil t)
  | step h s ih => exact stepKH_rangeOK s ih

/-- The counting argument: pairwise-distinct (row, seat) pairs that all
lie in the hall's 1-indexed grid number at most `rows * seats_in_row`. -/
theorem ticketCount_le_capacity {db : DB} (hu : UniqueOK db) (hr : RangeOK db)
    (hinj : ∀ p1 ∈ db.performances, ∀ p2 ∈ db.performances, p1.id = p2.id → p1 = p2)
    {p : Performance} (hp : p ∈ db.performances) :
    performanceTicketCount db p.id ≤
      p.theatre_hall.rows * p.theatre_hall.seats_in_row := by
  classical
  have hmemall : ∀ t ∈ db.tickets.filter (fun t => t.performanceId = p.id),
      t.performanceId = p.id := by
    intro t ht
    have := List.of_mem_filter ht
    simpa using this
  have hpl : (db.tickets.filter (fun t => t.performanceId = p.id)).Pairwise UniquePerf :=
    List.Pairwise.sublist (List.filter_sublist _) hu
  have hpairs : ((db.tickets.filter (fun t => t.performanceId = p.id)).map
      (fun t => (t.row, t.seat))).Nodup := by
    show ((db.tickets.filter (fun t => t.performanceId = p.id)).map
      (fun t => (t.row, t.seat))).Pairwise (· ≠ ·)
    rw [List.pairwise_map]
    exact hpl.imp_of_mem (fun {a b} ha hb hR =>
      hR (by rw [hmemall a ha, hmemall b hb]))
  have hgrid : ∀ q ∈ (db.tickets.filter (fun t => t.performanceId = p.id)).map
      (fun t => (t.row, t.seat)),
      q ∈ Finset.Icc 1 p.theatre_hall.rows ×ˢ
        Finset.Icc 1 p.theatre_hall.seats_in_row := by
    intro q hq
    obtain ⟨t, ht, rfl⟩ := List.mem_map.mp hq
    obtain ⟨p2, hp2, hid2, hb1, hb2, hb3, hb4⟩ := hr t (List.mem_of_mem_filter ht)
    have heq : p2 = p := hinj p2 hp2 p hp (by rw [hid2, hmemall t ht])
    subst heq
    simp only [Finset.mem_product, Finset.mem_Icc]
    exact ⟨⟨hb1, hb2⟩, hb3, hb4⟩
  have hcard := List.toFinset_card_of_nodup hpairs
  have hsubf : ((db.tickets.filter (fun t => t.performanceId = p.id)).map
      (fun t => (t.row, t.seat))).toFinset ⊆
      Finset.Icc 1 p.theatre_hall.rows ×ˢ
        Finset.Icc 1 p.theatre_hall.seats_in_row :=
    fun q hq => hgrid q (List.mem_toFinset.mp hq)
  have hle := Finset.card_le_card hsubf
  rw [hcard, List.length_map] at hle
  have hgc : (Finset.Icc 1 p.theatre_hall.rows ×ˢ
      Finset.Icc 1 p.theatre_hall.seats_in_row).card =
      p.theatre_hall.rows * p.theatre_hall.seats_in_row := by
    rw [Finset.card_product, Nat.card_Icc, Nat.card_Icc]
    simp
  rw [hgc] at hle
  exact hle

/-- The amended C10: in every state reachable without reassigning a
performance's hall, every row of the performance list has a non-negative
`tickets_available` — the range invariant and the per-performance
(row, seat) uniqueness invariant inject each performance's tickets into
its hall's rows-by-seats grid. -/
theorem C10_amended_availability_nonneg (db : DB) (h : ReachableKeepHall db)
    (r : PerfListRow) (hmem : r ∈ performanceListQuery db none none) :
    0 ≤ r.tickets_available := by
  have hu := reachableKH_uniqueOK h
  have hrange := reachableKH_rangeOK h
  have hwf := reachableKH_perfWF h
  have hinj : ∀ p1 ∈ db.performances, ∀ p2 ∈ db.performances,
      p1.id = p2.id → p1 = p2 := by
    intro p1 h1 p2 h2 heq
    exact List.inj_on_of_nodup_map hwf.2 h1 h2 heq
  unfold performanceListQuery at hmem
  rw [List.mem_map] at hmem
  obtain ⟨p, hp, rfl⟩ := hmem
  have hple : p ∈ db.performances := hp
  have hcount := ticketCount_le_capacity hu hrange hinj hple
  dsimp only
  omega

/-- The `ReachableKeepHall` chain behind the concrete store `dbW3`. -/
theorem reachableKH_dbW3 : ReachableKeepHall dbW3 :=
  .step (.step (.step .init
    (.hallCreate DB.empty "Blue" 20 20 dbW1 1 (by decide)))
    (.perfCreate dbW1 1 1 0 dbW2 1 (by decide)))
    (.reservationCreate dbW2 1 [⟨1, 2, 3⟩] dbW3 1 (by decide))

/-- Witness for the amended C10 on `dbW3` (399 seats left of 400). -/
theorem C10_witness :
    (0 : Int) ≤ (⟨1, 0, 400, 399⟩ : PerfListRow).tickets_available :=
  C10_amended_availability_nonneg dbW3 reachableKH_dbW3 ⟨1, 0, 400, 399⟩
    (by decide)

/-- Intermediate stores of the C10 counterexample chain. -/
def dbN1 : DB := ⟨[⟨1, "A", 1, 2⟩], [], [], [], 2, 1, 1⟩

def dbN2 : DB := ⟨[⟨1, "A", 1, 2⟩, ⟨2, "B", 1, 1⟩], [], [], [], 3, 1, 1⟩

def dbN3 : DB :=
  ⟨[⟨1, "A", 1, 2⟩, ⟨2, "B", 1, 1⟩], [⟨1, 1, ⟨1, "A", 1, 2⟩, 0⟩], [], [], 3, 2, 1⟩

def dbN4 : DB :=
  ⟨[⟨1, "A", 1, 2⟩, ⟨2, "B", 1, 1⟩], [⟨1, 1, ⟨1, "A", 1, 2⟩, 0⟩], [⟨1, 1⟩],
   [⟨1, 1, 1, 1⟩, ⟨1, 2, 1, 1⟩], 3, 2, 2⟩

/-- Store reached by booking both seats of a 1 x 2 hall's performance and
then moving that performance to a 1 x 1 hall via the update endpoint. -/
def dbC10 : DB :=
  ⟨[⟨1, "A", 1, 2⟩, ⟨2, "B", 1, 1⟩], [⟨1, 1, ⟨2, "B", 1, 1⟩, 0⟩], [⟨1, 1⟩],
   [⟨1, 1, 1, 1⟩, ⟨1, 2, 1, 1⟩], 3, 2, 2⟩

/-- Counterexample for C10 as stated: a reachable state (both seats of a
1 x 2 hall sold, then the performance moved to a 1 x 1 hall through the
writable `theatre_hall` of the performance-update endpoint) whose list
row reports `tickets_available = -1`. -/
theorem C10_counterexample :
    Reachable dbC10 ∧
    (⟨1, 0, 1, -1⟩ : PerfListRow) ∈ performanceListQuery dbC10 none none ∧
    (⟨1, 0, 1, -1⟩ : PerfListRow).tickets_available < 0 := by
  refine ⟨?_, by decide, by decide⟩
  exact .step (.step (.step (.step (.step .init
    (.hallCreate DB.empty "A" 1 2 dbN1 1 (by decide)))
    (.hallCreate dbN1 "B" 1 1 dbN2 2 (by decide)))
    (.perfCreate dbN2 1 1 0 dbN3 1 (by decide)))
    (.reservationCreate dbN3 1 [⟨1, 1, 1⟩, ⟨1, 1, 2⟩] dbN4 1 (by decide)))
    (.perfUpdate dbN4 1 1 2 0 dbC10 (by decide))

end TheatreAPI
